import Mathlib

/-!
Verification of the ChatFrontEnd realtime state-synchronization engine.

Shallow embedding of `src/context/SocketContext.tsx` (the second provider
variant, lines 357-875), the divergent variant in `src/unnamed/part_005`,
the message model of `part_005` (the `types/chat` module, lines 514-571),
and the notification store `src/components/chat/useEventNotifications.tsx`.

Modelling conventions:
- `createdAt` timestamps are epoch milliseconds as `Int` (the code stores an
  ISO string and compares `new Date(s).getTime()`; the round trip through the
  string is the identity on the epoch value).
- `Date.now()` at the moment a handler runs is passed explicitly as `now`.
- Notification emission is recorded as a list of `NotifCall` values in the
  order the handler invokes `notifications.*` (the `setTimeout(..., 0)`
  deferral changes when they run, not whether or how many run).
- The socket is modelled by two booleans: whether the provider holds a socket
  object (`hasSocket`) and the `connected` flag.
-/

namespace ChatFrontEnd

/-- Message `type` discriminator (types/chat: TEXT | STICKER | IMAGE | FILE). -/
inductive MsgType
  | TEXT
  | STICKER
  | IMAGE
  | FILE
deriving DecidableEq, Repr

/-- types/chat `Attachment`. -/
structure Attachment where
  id : String
  fileName : String
  fileSize : Nat
  mimeType : String
  url : String
deriving DecidableEq, Repr

/-- types/chat `Message` (the discriminated union flattened: `content` is
`Option String`, `none` modelling the JSON `null` caption/description of
IMAGE/FILE messages; TEXT/STICKER carry `some`). -/
structure Message where
  id : String
  type : MsgType
  content : Option String
  nickname : String
  createdAt : Int
  attachments : List Attachment
deriving DecidableEq, Repr

/-- types/chat `UIMessage`: a Message plus derived `isMine` and the optional
`isSystem` flag (absent = false). -/
structure UIMessage extends Message where
  isMine : Bool
  isSystem : Bool := false
deriving DecidableEq, Repr

/-- types/chat `isMine`. -/
def msgIsMine (m : Message) (myNickname : String) : Bool :=
  m.nickname == myNickname

/-- types/chat `toUIMessage`. -/
def toUIMessage (m : Message) (myNickname : String) : UIMessage :=
  { toMessage := m, isMine := msgIsMine m myNickname, isSystem := false }

/-- Notification kinds of `useEventNotifications` (`EventType`). -/
inductive NotifKind
  | success
  | error
  | info
  | warning
deriving DecidableEq, Repr

/-- One invocation of a notification convenience method (kind and title). -/
structure NotifCall where
  kind : NotifKind
  title : String
deriving DecidableEq, Repr

/-- The provider state the event handlers read and write. -/
structure ChatState where
  messages : List UIMessage
  participantCount : Nat
  participants : List String
  nickname : String
  roomToken : String
  sessionToken : String
  isReconnecting : Bool
  shouldShowJoinNotification : Bool
deriving DecidableEq, Repr

/-- `new_message` handler (SocketContext.tsx lines 569-585 / part_005 lines
206-222): build the UIMessage with the current nickname, and append it only
if no existing message shares its id. -/
def handleNewMessage (st : ChatState) (message : Message) : ChatState :=
  let uiMessage := toUIMessage message st.nickname
  if st.messages.any (fun m => m.id == uiMessage.id) then
    st
  else
    { st with messages := st.messages ++ [uiMessage] }

/-- Number of stored messages carrying a given id. -/
def countWithId (msgs : List UIMessage) (id : String) : Nat :=
  (msgs.filter (fun m => m.id == id)).length

/-- Payload of the `room_joined` server event. -/
structure RoomJoinedData where
  roomToken : String
  participantCount : Nat
  participants : List String
  messages : List Message
deriving Repr

/-- The `setMessages` updater of the `room_joined` handler: replace when the
local list is empty (initial join), otherwise append only history messages
whose id is not already present. -/
def mergeHistory (prevMessages historyMessages : List UIMessage) : List UIMessage :=
  if prevMessages.isEmpty then
    historyMessages
  else
    let existingIds := prevMessages.map (fun m => m.id)
    let newMessages := historyMessages.filter (fun msg => !(existingIds.contains msg.id))
    prevMessages ++ newMessages

/-- `room_joined` handler (SocketContext.tsx lines 461-501 / part_005 lines
83-123): set participant count and list from the payload; map the history
through `toUIMessage` with the current nickname; merge it into the local
list via `mergeHistory`; fire the join-success notification only when the
one-shot flag is set and not reconnecting, clearing the flag when shown. -/
def handleRoomJoined (st : ChatState) (data : RoomJoinedData) :
    ChatState × List NotifCall :=
  let st1 := { st with
    participantCount := data.participantCount
    participants := data.participants }
  let historyMessages := data.messages.map (fun msg => toUIMessage msg st1.nickname)
  let st2 := { st1 with messages := mergeHistory st1.messages historyMessages }
  if st2.shouldShowJoinNotification && !st2.isReconnecting then
    ({ st2 with shouldShowJoinNotification := false, isReconnecting := false },
      [⟨NotifKind.success, "Joined room successfully!"⟩])
  else
    ({ st2 with isReconnecting := false }, [])

/-- Payload of the `user_joined` / `user_left` server events. -/
structure UserEventData where
  nickname : String
  participantCount : Nat
  participants : List String
deriving Repr

/-- The synthesized system message for a `user_joined` event, built at
`now = Date.now()`. -/
def joinSystemMessage (nick : String) (now : Int) : UIMessage :=
  { id := "system-join-" ++ nick ++ "-" ++ toString now
    type := MsgType.TEXT
    content := some (nick ++ " joined the room")
    nickname := "System"
    createdAt := now
    attachments := []
    isMine := false
    isSystem := true }

/-- The synthesized system message for a `user_left` event. -/
def leftSystemMessage (nick : String) (now : Int) : UIMessage :=
  { id := "system-left-" ++ nick ++ "-" ++ toString now
    type := MsgType.TEXT
    content := some (nick ++ " left the room")
    nickname := "System"
    createdAt := now
    attachments := []
    isMine := false
    isSystem := true }

/-- The trailing five-second duplicate test used by the user_joined /
user_left handlers: is there an existing system message with identical
content whose timestamp is newer than `now - 5000`? -/
def hasRecentSystemDuplicate (msgs : List UIMessage) (content : Option String)
    (now : Int) : Bool :=
  let fiveSecondsAgo := now - 5000
  msgs.any (fun m => m.isSystem && m.content == content && m.createdAt > fiveSecondsAgo)

/-- `user_joined` handler (SocketContext.tsx lines 503-541 / part_005 lines
125-163): set count and list from the payload; append the synthesized system
message unless a duplicate exists in the trailing 5-second window; the info
notification is emitted unconditionally, whether or not the system message
was accepted. -/
def handleUserJoined (st : ChatState) (now : Int) (data : UserEventData) :
    ChatState × List NotifCall :=
  let st1 := { st with
    participantCount := data.participantCount
    participants := data.participants }
  let systemMessage := joinSystemMessage data.nickname now
  let msgs :=
    if hasRecentSystemDuplicate st1.messages systemMessage.content now then
      st1.messages
    else
      st1.messages ++ [systemMessage]
  ({ st1 with messages := msgs },
    [⟨NotifKind.info, data.nickname ++ " joined the room"⟩])

/-- `user_left` handler, part_005 variant (lines 165-204): as user_joined,
except the info notification is emitted only in the branch that accepts the
system message (it sits inside the updater, before the append returns). -/
def handleUserLeft (st : ChatState) (now : Int) (data : UserEventData) :
    ChatState × List NotifCall :=
  let st1 := { st with
    participantCount := data.participantCount
    participants := data.participants }
  let systemMessage := leftSystemMessage data.nickname now
  if hasRecentSystemDuplicate st1.messages systemMessage.content now then
    (st1, [])
  else
    ({ st1 with messages := st1.messages ++ [systemMessage] },
      [⟨NotifKind.info, data.nickname ++ " left the room"⟩])

/-- `user_left` handler, SocketContext.tsx variant (lines 543-567): no
duplicate check at all — the system message is always appended and the info
notification always emitted. -/
def handleUserLeftCtx (st : ChatState) (now : Int) (data : UserEventData) :
    ChatState × List NotifCall :=
  let st1 := { st with
    participantCount := data.participantCount
    participants := data.participants }
  let systemMessage := leftSystemMessage data.nickname now
  ({ st1 with messages := st1.messages ++ [systemMessage] },
    [⟨NotifKind.info, data.nickname ++ " left the room"⟩])

/-- `room_closed` handler (SocketContext.tsx lines 606-615 / part_005 lines
243-252): emit the error notification with the server reason, then clear
messages, participant count and participant list; the session fields are not
touched. -/
def handleRoomClosed (st : ChatState) (reason : String) :
    ChatState × List NotifCall :=
  ({ st with messages := [], participantCount := 0, participants := [] },
    [⟨NotifKind.error, "Room closed: " ++ reason⟩])

/-- Number of stored system messages with a given content. -/
def countSystemWithContent (msgs : List UIMessage) (content : Option String) : Nat :=
  (msgs.filter (fun m => m.isSystem && m.content == content)).length

/-- Number of info-kind notification calls in a list. -/
def countInfo (ns : List NotifCall) : Nat :=
  (ns.filter (fun n => n.kind == NotifKind.info)).length

/-- Connection facts a command reads: whether the provider holds a socket
object and the `connected` state flag. -/
structure ConnState where
  hasSocket : Bool
  connected : Bool
deriving DecidableEq, Repr

/-- A client-to-server emit on the channel. -/
inductive Emit
  | sendMsg (type : MsgType) (content : Option String) (attachments : List Attachment)
  | deleteMsg (messageId : String)
  | joinRoomCmd (roomToken : String) (sessionToken : String)
deriving DecidableEq, Repr

/-- Result of a simple (non-uploading) outbound command: the state afterwards,
the emits performed, and the notifications raised. -/
structure CmdResult where
  state : ChatState
  emits : List Emit
  notifs : List NotifCall
deriving Repr

/-- `sendMessage` (SocketContext.tsx lines 697-707 / part_005 lines 301-311):
guard on socket presence and connectivity, else emit a TEXT send_message. -/
def sendMessage (conn : ConnState) (st : ChatState) (content : String) : CmdResult :=
  if !conn.hasSocket || !conn.connected then
    ⟨st, [], [⟨NotifKind.error, "Not connected to server"⟩]⟩
  else
    ⟨st, [Emit.sendMsg MsgType.TEXT (some content) []], []⟩

/-- `sendSticker` (part_005 lines 313-323): same guard; emits a STICKER
send_message whose content is the sticker id. -/
def sendSticker (conn : ConnState) (st : ChatState) (stickerId : String) : CmdResult :=
  if !conn.hasSocket || !conn.connected then
    ⟨st, [], [⟨NotifKind.error, "Not connected to server"⟩]⟩
  else
    ⟨st, [Emit.sendMsg MsgType.STICKER (some stickerId) []], []⟩

/-- `deleteMessage` (SocketContext.tsx lines 811-818): same guard; emits a
delete_message command. -/
def deleteMessage (conn : ConnState) (st : ChatState) (messageId : String) : CmdResult :=
  if !conn.hasSocket || !conn.connected then
    ⟨st, [], [⟨NotifKind.error, "Not connected to server"⟩]⟩
  else
    ⟨st, [Emit.deleteMsg messageId], []⟩

/-- Outcome of one file's upload request against the Upload Gateway. -/
inductive UploadOutcome
  | ok (a : Attachment)
  | failed (err : String)
deriving DecidableEq, Repr

/-- `Promise.all` over the per-file upload promises: all successes collected
in order, or the first failure (in list order) rejects the batch. -/
def promiseAll : List UploadOutcome → Except String (List Attachment)
  | [] => Except.ok []
  | UploadOutcome.ok a :: rest => (promiseAll rest).map (fun as => a :: as)
  | UploadOutcome.failed e :: _ => Except.error e

/-- `uploadFiles` (SocketContext.tsx lines 721-754): fan out one upload per
file, `Promise.all` the results; any failure rethrows. -/
def uploadFiles (outcomes : List UploadOutcome) : Except String (List Attachment) :=
  promiseAll outcomes

/-- JavaScript `x || null` on an optional string: `undefined` and the empty
string are falsy and become `null`. -/
def jsOrNull (s : Option String) : Option String :=
  match s with
  | none => none
  | some v => if v == "" then none else some v

/-- Result of `sendImage` / `sendFile`: emits, notifications, the `uploading`
flag observed while phase 1 runs, and its value after the call completes. -/
structure SendFilesResult where
  emits : List Emit
  notifs : List NotifCall
  uploadingDuring : Bool
  uploadingAfter : Bool
deriving Repr

/-- `sendImage` (SocketContext.tsx lines 756-781 / part_005 lines 360-385):
guard on connectivity (leaving `uploading` at its prior value); otherwise set
`uploading` for phase 1, and either emit one IMAGE send_message carrying all
attachments plus a success notification, or on any upload failure emit
nothing and raise the failure notification; `uploading` is cleared in the
`finally` on both paths. `outcomes` is the Upload Gateway's response to each
file of `files`, position by position. -/
def sendImage (conn : ConnState) (uploading0 : Bool) (filesLen : Nat)
    (outcomes : List UploadOutcome) (caption : Option String) : SendFilesResult :=
  if !conn.hasSocket || !conn.connected then
    ⟨[], [⟨NotifKind.error, "Not connected to server"⟩], uploading0, uploading0⟩
  else
    match uploadFiles outcomes with
    | Except.ok attachments =>
      ⟨[Emit.sendMsg MsgType.IMAGE (jsOrNull caption) attachments],
        [⟨NotifKind.success, "Sent " ++ toString filesLen ++ " image(s)"⟩],
        true, false⟩
    | Except.error _ =>
      ⟨[], [⟨NotifKind.error, "Failed to send images"⟩], true, false⟩

/-- `sendFile` (SocketContext.tsx lines 784-809 / part_005 lines 388-413):
identical shape to `sendImage` with type FILE and the file wording. -/
def sendFile (conn : ConnState) (uploading0 : Bool) (filesLen : Nat)
    (outcomes : List UploadOutcome) (description : Option String) : SendFilesResult :=
  if !conn.hasSocket || !conn.connected then
    ⟨[], [⟨NotifKind.error, "Not connected to server"⟩], uploading0, uploading0⟩
  else
    match uploadFiles outcomes with
    | Except.ok attachments =>
      ⟨[Emit.sendMsg MsgType.FILE (jsOrNull description) attachments],
        [⟨NotifKind.success, "Sent " ++ toString filesLen ++ " file(s)"⟩],
        true, false⟩
    | Except.error _ =>
      ⟨[], [⟨NotifKind.error, "Failed to send files"⟩], true, false⟩

/-- The socket channel as `joinRoom` sees it: the `connected` flag, whether
`connect()` has been requested, and the emits queued by `once('connect', ·)`
waiting for the handshake. -/
structure Channel where
  connected : Bool
  connectRequested : Bool
  pendingOnConnect : List Emit
deriving DecidableEq, Repr

/-- One emit as observed on the wire, tagged with whether the channel's
`connected` flag was set at the moment the emit was performed. -/
structure EmitLogEntry where
  cmd : Emit
  whileConnected : Bool
deriving DecidableEq, Repr

/-- Provider state relevant to `joinRoom`: socket presence, the channel, the
session fields, the two flags, and the log of emits performed so far. -/
structure JoinState where
  hasSocket : Bool
  chan : Channel
  roomToken : String
  sessionToken : String
  nickname : String
  isReconnecting : Bool
  shouldShowJoinNotification : Bool
  log : List EmitLogEntry
deriving DecidableEq, Repr

/-- `joinRoom`, part_005 variant (lines 281-298): no-op without a socket;
record the session fields and reset the flags; if the channel is connected
emit join_room at once, otherwise queue `doJoin` on a one-shot connect
listener and call `connect()`. -/
def joinRoomP5 (st : JoinState) (roomTkn sessionTkn nick : String) : JoinState :=
  if !st.hasSocket then
    st
  else
    let st1 := { st with
      roomToken := roomTkn
      sessionToken := sessionTkn
      nickname := nick
      isReconnecting := false
      shouldShowJoinNotification := true }
    let joinCmd := Emit.joinRoomCmd roomTkn sessionTkn
    if st1.chan.connected then
      { st1 with log := st1.log ++ [⟨joinCmd, true⟩] }
    else
      { st1 with chan := { st1.chan with
          connectRequested := true
          pendingOnConnect := st1.chan.pendingOnConnect ++ [joinCmd] } }

/-- `joinRoom`, SocketContext.tsx variant (lines 680-694): record the session
fields and flags, call `connect()` when not connected, then emit join_room
immediately — without waiting for the handshake. -/
def joinRoomCtx (st : JoinState) (roomTkn sessionTkn nick : String) : JoinState :=
  if !st.hasSocket then
    st
  else
    let st1 := { st with
      roomToken := roomTkn
      sessionToken := sessionTkn
      nickname := nick
      isReconnecting := false
      shouldShowJoinNotification := true }
    let st2 :=
      if !st1.chan.connected then
        { st1 with chan := { st1.chan with connectRequested := true } }
      else
        st1
    { st2 with log := st2.log ++ [⟨Emit.joinRoomCmd roomTkn sessionTkn, st2.chan.connected⟩] }

/-- The channel's `connect` handshake completing: the flag flips to true and
every emit queued on the one-shot connect listener is performed, now with the
channel connected. -/
def fireConnect (st : JoinState) : JoinState :=
  { st with
    chan := { st.chan with connected := true, pendingOnConnect := [] }
    log := st.log ++ st.chan.pendingOnConnect.map (fun c => ⟨c, true⟩) }

/-- The `ChatState` effects of a `joinRoom` call shared by all variants:
record session fields, clear `isReconnecting`, arm the one-shot
join-notification flag. -/
def joinRoomState (st : ChatState) (roomTkn sessionTkn nick : String) : ChatState :=
  { st with
    roomToken := roomTkn
    sessionToken := sessionTkn
    nickname := nick
    isReconnecting := false
    shouldShowJoinNotification := true }

/-- Deliver a sequence of `room_joined` events in order, accumulating the
notifications every handler run emits. -/
def processRoomJoined : ChatState → List RoomJoinedData → ChatState × List NotifCall
  | st, [] => (st, [])
  | st, ev :: rest =>
    let r := handleRoomJoined st ev
    let tail := processRoomJoined r.1 rest
    (tail.1, r.2 ++ tail.2)

/-- Number of join-success notifications in a list. -/
def countJoinSuccess (ns : List NotifCall) : Nat :=
  (ns.filter (fun n =>
    n.kind == NotifKind.success && n.title == "Joined room successfully!")).length

/-- useEventNotifications `EventNotification` entry. -/
structure EventNotification where
  id : String
  kind : NotifKind
  title : String
  message : Option String
  duration : Option Nat
deriving DecidableEq, Repr

/-- The id-less notification passed to `addNotification`. -/
structure NotifInput where
  kind : NotifKind
  title : String
  message : Option String
  duration : Option Nat
deriving DecidableEq, Repr

/-- `notification.duration ?? 5000`. -/
def effectiveDuration (n : NotifInput) : Nat :=
  n.duration.getD 5000

/-- Store state: the visible queue plus the pending `setTimeout` removals,
each a pair of absolute fire time and target id. -/
structure StoreState where
  queue : List EventNotification
  timers : List (Nat × String)
deriving DecidableEq, Repr

/-- `removeNotification` (useEventNotifications lines 39-42): filter the id
out of the queue. -/
def removeNotification (q : List EventNotification) (id : String) :
    List EventNotification :=
  q.filter (fun n => n.id != id)

/-- `addNotification` (useEventNotifications lines 22-38) run at absolute
time `now` with the generated id `id`: append the entry, and when the
effective duration is positive schedule its removal at `now + duration`. -/
def addNotification (st : StoreState) (now : Nat) (input : NotifInput)
    (id : String) : StoreState :=
  let duration := effectiveDuration input
  let st1 := { st with
    queue := st.queue ++ [⟨id, input.kind, input.title, input.message, input.duration⟩] }
  if duration > 0 then
    { st1 with timers := st1.timers ++ [(now + duration, id)] }
  else
    st1

/-- Run every scheduled removal whose fire time has been reached by `now`
(each timer callback filters its id out of the queue; removals by distinct
filters commute, so list order is immaterial). -/
def fireDueTimers (st : StoreState) (now : Nat) : StoreState :=
  { queue := (st.timers.filter (fun t => t.1 ≤ now)).foldl
      (fun q t => removeNotification q t.2) st.queue
    timers := st.timers.filter (fun t => !(t.1 ≤ now)) }

/-- A timed call into the store: `add` (with the id the generator produced)
or `remove`. -/
inductive StoreCmd
  | add (input : NotifInput) (id : String)
  | remove (id : String)
deriving Repr

/-- Apply one store call at time `now`, after firing the timers due by then. -/
def applyCmd (st : StoreState) (now : Nat) (c : StoreCmd) : StoreState :=
  let st1 := fireDueTimers st now
  match c with
  | StoreCmd.add input id => addNotification st1 now input id
  | StoreCmd.remove id => { st1 with queue := removeNotification st1.queue id }

/-- The queue visible at time `T`, given the timestamped calls made so far
(assumed in nondecreasing time order): apply every call not after `T`, then
fire the timers due at `T`. -/
def queueAt (cmds : List (Nat × StoreCmd)) (T : Nat) : List EventNotification :=
  let final := (cmds.filter (fun c => c.1 ≤ T)).foldl
    (fun st c => applyCmd st c.1 c.2) ⟨[], []⟩
  (fireDueTimers final T).queue

/-- Is an entry with the given id visible at time `T`? -/
def presentAt (cmds : List (Nat × StoreCmd)) (T : Nat) (id : String) : Bool :=
  (queueAt cmds T).any (fun n => n.id == id)

/-! Concrete fixtures used by witnesses and counterexamples. -/

/-- A concrete text message. -/
def sampleMsg1 : Message :=
  ⟨"m1", MsgType.TEXT, some "hello", "alice", 1000, []⟩

/-- A second concrete text message. -/
def sampleMsg2 : Message :=
  ⟨"m2", MsgType.TEXT, some "hi", "carol", 2000, []⟩

/-- A third concrete text message. -/
def sampleMsg3 : Message :=
  ⟨"m3", MsgType.TEXT, some "hey", "alice", 3000, []⟩

/-- The provider state right after initialization: empty lists, empty session
fields, the one-shot join-notification flag armed. -/
def emptyChatState : ChatState :=
  ⟨[], 0, [], "", "", "", false, true⟩

/-- A mid-session state for alice holding the local list [m1, m2]. -/
def aliceTwoMsgState : ChatState :=
  ⟨[toUIMessage sampleMsg1 "alice", toUIMessage sampleMsg2 "alice"],
    2, ["alice", "carol"], "alice", "rt", "st", false, false⟩

/-- A `room_joined` payload replaying history [m1, m2, m3]. -/
def reconnectHistory : RoomJoinedData :=
  ⟨"rt", 2, ["alice", "carol"], [sampleMsg1, sampleMsg2, sampleMsg3]⟩

/-- A `user_joined`/`user_left` payload for bob. -/
def bobEvent : UserEventData :=
  ⟨"bob", 2, ["alice", "bob"]⟩

/-- A concrete stored attachment descriptor. -/
def sampleAttachment : Attachment :=
  ⟨"a1", "pic.png", 123, "image/png", "http://files/a1"⟩

/-- A connection with a socket present and connected. -/
def connOk : ConnState :=
  ⟨true, true⟩

/-- A connection with a socket present but not connected. -/
def connIdle : ConnState :=
  ⟨true, false⟩

/-- A provider with a socket whose channel has not connected yet. -/
def idleJoinState : JoinState :=
  ⟨true, ⟨false, false, []⟩, "", "", "", false, true, []⟩

/-- A concrete notification input with the given duration. -/
def sampleNotifInput (d : Option Nat) : NotifInput :=
  ⟨NotifKind.info, "hello", none, d⟩

/-! Shared helper lemmas. -/

/-- `handleNewMessage` written as a single conditional. -/
lemma handleNewMessage_eq (st : ChatState) (msg : Message) :
    handleNewMessage st msg =
      if st.messages.any (fun m => m.id == msg.id) then st
      else { st with messages := st.messages ++ [toUIMessage msg st.nickname] } :=
  rfl

/-- A redelivered id leaves the state unchanged. -/
lemma handleNewMessage_dup (st : ChatState) (msg : Message)
    (h : st.messages.any (fun m => m.id == msg.id) = true) :
    handleNewMessage st msg = st := by
  rw [handleNewMessage_eq, if_pos h]

/-- A fresh id is appended at the end. -/
lemma handleNewMessage_fresh (st : ChatState) (msg : Message)
    (h : st.messages.any (fun m => m.id == msg.id) = false) :
    handleNewMessage st msg
      = { st with messages := st.messages ++ [toUIMessage msg st.nickname] } := by
  rw [handleNewMessage_eq, if_neg (by simp [h])]

/-! Theorems, one per claim. -/

/-- C1: an inbound `new_message` whose id already occurs locally leaves the
list unchanged; a fresh id is appended at the end; delivering the same event
twice is idempotent and, from a fresh id, stores the message exactly once. -/
theorem c1_new_message_idempotent (st : ChatState) (msg : Message) :
    (st.messages.any (fun m => m.id == msg.id) = true →
      handleNewMessage st msg = st)
    ∧ (st.messages.any (fun m => m.id == msg.id) = false →
      (handleNewMessage st msg).messages
        = st.messages ++ [toUIMessage msg st.nickname])
    ∧ handleNewMessage (handleNewMessage st msg) msg = handleNewMessage st msg
    ∧ (st.messages.any (fun m => m.id == msg.id) = false →
      countWithId (handleNewMessage (handleNewMessage st msg) msg).messages msg.id
        = 1) := by
  have hid : (toUIMessage msg st.nickname).id = msg.id := rfl
  have happ : ((st.messages ++ [toUIMessage msg st.nickname]).any
      (fun m => m.id == msg.id)) = true := by
    rw [List.any_append]
    simp [hid]
  refine ⟨handleNewMessage_dup st msg, ?_, ?_, ?_⟩
  · intro h
    rw [handleNewMessage_fresh st msg h]
  · by_cases h : st.messages.any (fun m => m.id == msg.id) = true
    · rw [handleNewMessage_dup st msg h]
      exact handleNewMessage_dup st msg h
    · have h' : st.messages.any (fun m => m.id == msg.id) = false := by
        simpa using h
      rw [handleNewMessage_fresh st msg h']
      exact handleNewMessage_dup _ msg happ
  · intro h
    have hfilter : st.messages.filter (fun m => m.id == msg.id) = [] := by
      apply List.filter_eq_nil_iff.mpr
      intro m hm
      have := List.any_eq_false.mp h m hm
      simpa using this
    rw [handleNewMessage_fresh st msg h, handleNewMessage_dup _ msg happ]
    show countWithId (st.messages ++ [toUIMessage msg st.nickname]) msg.id = 1
    rw [countWithId, List.filter_append, hfilter]
    simp [hid]

/-- C1 witness: concrete double delivery of m1 into the fresh state. -/
theorem c1_witness :
    ((handleNewMessage emptyChatState sampleMsg1).messages
        = [toUIMessage sampleMsg1 ""])
    ∧ countWithId
        (handleNewMessage (handleNewMessage emptyChatState sampleMsg1) sampleMsg1).messages
        "m1" = 1 := by
  constructor
  · have h := (c1_new_message_idempotent emptyChatState sampleMsg1).2.1 (by decide)
    simpa [emptyChatState] using h
  · exact (c1_new_message_idempotent emptyChatState sampleMsg1).2.2.2 (by decide)

/-- The message list produced by the `room_joined` handler is the merge of
the local list with the mapped history. -/
lemma handleRoomJoined_fst_messages (st : ChatState) (data : RoomJoinedData) :
    (handleRoomJoined st data).1.messages =
      mergeHistory st.messages (data.messages.map (fun m => toUIMessage m st.nickname)) := by
  simp only [handleRoomJoined]
  split
  · rfl
  · rfl

/-- `List.contains` agrees with propositional membership on strings. -/
lemma contains_eq_decide_mem (l : List String) (a : String) :
    l.contains a = decide (a ∈ l) := by
  simp

/-- C2: on `room_joined`, an empty local list is replaced wholesale by the
mapped history; a non-empty local list is kept unchanged in content and
order and extended by exactly those history messages whose id is not already
present; in particular local [m1, m2] merged with history [m1, m2, m3]
yields [m1, m2, m3]. -/
theorem c2_room_joined_merge (st : ChatState) (data : RoomJoinedData) :
    (st.messages = [] →
      (handleRoomJoined st data).1.messages
        = data.messages.map (fun m => toUIMessage m st.nickname))
    ∧ (st.messages ≠ [] →
      (handleRoomJoined st data).1.messages
        = st.messages ++
            (data.messages.map (fun m => toUIMessage m st.nickname)).filter
              (fun m => !decide (m.id ∈ st.messages.map (fun x => x.id))))
    ∧ (handleRoomJoined aliceTwoMsgState reconnectHistory).1.messages
        = [toUIMessage sampleMsg1 "alice", toUIMessage sampleMsg2 "alice",
            toUIMessage sampleMsg3 "alice"] := by
  refine ⟨?_, ?_, by decide⟩
  · intro h
    rw [handleRoomJoined_fst_messages, mergeHistory, if_pos (by simp [h])]
  · intro h
    have hne : st.messages.isEmpty = false := by
      cases hm : st.messages with
      | nil => exact absurd hm h
      | cons a l => rfl
    rw [handleRoomJoined_fst_messages, mergeHistory, if_neg (by simp [hne])]
    have hpred : ∀ m : UIMessage,
        (!(st.messages.map (fun x => x.id)).contains m.id)
          = (!decide (m.id ∈ st.messages.map (fun x => x.id))) := by
      intro m
      rw [contains_eq_decide_mem]
    simp only [hpred]

/-- C2 witness: the empty-list branch at a concrete input. -/
theorem c2_witness :
    (handleRoomJoined emptyChatState reconnectHistory).1.messages
      = [toUIMessage sampleMsg1 "", toUIMessage sampleMsg2 "",
          toUIMessage sampleMsg3 ""] := by
  have h := (c2_room_joined_merge emptyChatState reconnectHistory).1 (by decide)
  simpa [emptyChatState, reconnectHistory] using h

/-- `handleUserJoined` written with the duplicate test as one conditional on
the messages field; the info notification is emitted either way. -/
lemma handleUserJoined_eq (st : ChatState) (now : Int) (d : UserEventData) :
    handleUserJoined st now d =
      ({ st with
          participantCount := d.participantCount
          participants := d.participants
          messages :=
            if hasRecentSystemDuplicate st.messages
                (some (d.nickname ++ " joined the room")) now then
              st.messages
            else
              st.messages ++ [joinSystemMessage d.nickname now] },
        [⟨NotifKind.info, d.nickname ++ " joined the room"⟩]) :=
  rfl

/-- The messages produced by `handleUserJoined` when no recent duplicate
exists: the system message is appended. -/
lemma handleUserJoined_messages_fresh (st : ChatState) (now : Int) (d : UserEventData)
    (h : hasRecentSystemDuplicate st.messages
      (some (d.nickname ++ " joined the room")) now = false) :
    (handleUserJoined st now d).1.messages
      = st.messages ++ [joinSystemMessage d.nickname now] := by
  rw [handleUserJoined_eq]
  show (if hasRecentSystemDuplicate st.messages
      (some (d.nickname ++ " joined the room")) now then
    st.messages else st.messages ++ [joinSystemMessage d.nickname now]) = _
  rw [if_neg (by simp [h])]

/-- The messages produced by `handleUserJoined` when a recent duplicate
exists: unchanged. -/
lemma handleUserJoined_messages_dup (st : ChatState) (now : Int) (d : UserEventData)
    (h : hasRecentSystemDuplicate st.messages
      (some (d.nickname ++ " joined the room")) now = true) :
    (handleUserJoined st now d).1.messages = st.messages := by
  rw [handleUserJoined_eq]
  show (if hasRecentSystemDuplicate st.messages
      (some (d.nickname ++ " joined the room")) now then
    st.messages else st.messages ++ [joinSystemMessage d.nickname now]) = _
  rw [if_pos h]

/-- `handleUserJoined` always emits exactly the one info notification. -/
lemma handleUserJoined_snd (st : ChatState) (now : Int) (d : UserEventData) :
    (handleUserJoined st now d).2
      = [⟨NotifKind.info, d.nickname ++ " joined the room"⟩] :=
  rfl

/-- `handleUserLeft` (part_005) written as one conditional over the pair. -/
lemma handleUserLeft_eq (st : ChatState) (now : Int) (d : UserEventData) :
    handleUserLeft st now d =
      if hasRecentSystemDuplicate st.messages
          (some (d.nickname ++ " left the room")) now then
        ({ st with
            participantCount := d.participantCount
            participants := d.participants }, [])
      else
        ({ st with
            participantCount := d.participantCount
            participants := d.participants
            messages := st.messages ++ [leftSystemMessage d.nickname now] },
          [⟨NotifKind.info, d.nickname ++ " left the room"⟩]) :=
  rfl

/-- Appending a matching system message pushes the duplicate test to true at
any `now` within its window. -/
lemma hasRecentSystemDuplicate_append_self (msgs : List UIMessage) (m : UIMessage)
    (hsys : m.isSystem = true) (now : Int) (hc : m.createdAt > now - 5000) :
    hasRecentSystemDuplicate (msgs ++ [m]) m.content now = true := by
  rw [hasRecentSystemDuplicate]
  simp [List.any_append, hsys, hc]

/-- Appending a matching system message bumps the content count by one. -/
lemma countSystemWithContent_append_one (msgs : List UIMessage) (m : UIMessage)
    (hsys : m.isSystem = true) (c : Option String) (hc : m.content = c) :
    countSystemWithContent (msgs ++ [m]) c = countSystemWithContent msgs c + 1 := by
  rw [countSystemWithContent, countSystemWithContent, List.filter_append]
  simp [hsys, hc]

/-- C3 counterexample: two `user_joined` events for bob 1000 ms apart yield
one synthesized system message but TWO info notifications, refuting the
claimed single notification per accepted system message. -/
theorem c3_counterexample :
    countSystemWithContent
        ((handleUserJoined (handleUserJoined emptyChatState 10000 bobEvent).1
            11000 bobEvent).1).messages
        (some "bob joined the room") = 1
    ∧ countInfo ((handleUserJoined emptyChatState 10000 bobEvent).2
        ++ (handleUserJoined (handleUserJoined emptyChatState 10000 bobEvent).1
            11000 bobEvent).2) = 2
    ∧ ¬ (countInfo ((handleUserJoined emptyChatState 10000 bobEvent).2
        ++ (handleUserJoined (handleUserJoined emptyChatState 10000 bobEvent).1
            11000 bobEvent).2) = 1) := by
  decide

/-- C3 amended: two `user_joined` events for one nickname within 5000 ms
produce exactly one synthesized system message, but the info notification is
emitted once per event (two in total); two `user_left` events within the
window (part_005 handler) produce exactly one system message and exactly one
info notification. -/
theorem c3_amended (st : ChatState) (d : UserEventData) (t1 t2 : Int)
    (h12 : t1 ≤ t2) (hwin : t2 < t1 + 5000)
    (hfreshJ : hasRecentSystemDuplicate st.messages
      (some (d.nickname ++ " joined the room")) t1 = false)
    (hfreshL : hasRecentSystemDuplicate st.messages
      (some (d.nickname ++ " left the room")) t1 = false) :
    (countSystemWithContent
        ((handleUserJoined (handleUserJoined st t1 d).1 t2 d).1).messages
        (some (d.nickname ++ " joined the room"))
      = countSystemWithContent st.messages
          (some (d.nickname ++ " joined the room")) + 1)
    ∧ countInfo ((handleUserJoined st t1 d).2
        ++ (handleUserJoined (handleUserJoined st t1 d).1 t2 d).2) = 2
    ∧ (countSystemWithContent
        ((handleUserLeft (handleUserLeft st t1 d).1 t2 d).1).messages
        (some (d.nickname ++ " left the room"))
      = countSystemWithContent st.messages
          (some (d.nickname ++ " left the room")) + 1)
    ∧ countInfo ((handleUserLeft st t1 d).2
        ++ (handleUserLeft (handleUserLeft st t1 d).1 t2 d).2) = 1 := by
  have hgtJ : (joinSystemMessage d.nickname t1).createdAt > t2 - 5000 := by
    show t1 > t2 - 5000
    omega
  have hgtL : (leftSystemMessage d.nickname t1).createdAt > t2 - 5000 := by
    show t1 > t2 - 5000
    omega
  have hm1 : (handleUserJoined st t1 d).1.messages
      = st.messages ++ [joinSystemMessage d.nickname t1] :=
    handleUserJoined_messages_fresh st t1 d hfreshJ
  have hdup2 : hasRecentSystemDuplicate (handleUserJoined st t1 d).1.messages
      (some (d.nickname ++ " joined the room")) t2 = true := by
    rw [hm1]
    exact hasRecentSystemDuplicate_append_self st.messages
      (joinSystemMessage d.nickname t1) rfl t2 hgtJ
  refine ⟨?_, ?_, ?_, ?_⟩
  · rw [handleUserJoined_messages_dup _ t2 d hdup2, hm1]
    exact countSystemWithContent_append_one st.messages _ rfl _ rfl
  · rw [handleUserJoined_snd, handleUserJoined_snd]
    rfl
  · have hl1 : handleUserLeft st t1 d
        = ({ st with
            participantCount := d.participantCount
            participants := d.participants
            messages := st.messages ++ [leftSystemMessage d.nickname t1] },
          [⟨NotifKind.info, d.nickname ++ " left the room"⟩]) := by
      rw [handleUserLeft_eq, if_neg (by simp [hfreshL])]
    have hdupL : hasRecentSystemDuplicate (handleUserLeft st t1 d).1.messages
        (some (d.nickname ++ " left the room")) t2 = true := by
      rw [hl1]
      exact hasRecentSystemDuplicate_append_self st.messages
        (leftSystemMessage d.nickname t1) rfl t2 hgtL
    have hl2 : handleUserLeft (handleUserLeft st t1 d).1 t2 d
        = ({ (handleUserLeft st t1 d).1 with
            participantCount := d.participantCount
            participants := d.participants }, []) := by
      rw [handleUserLeft_eq, if_pos hdupL]
    rw [hl2]
    show countSystemWithContent (handleUserLeft st t1 d).1.messages _ = _
    rw [hl1]
    exact countSystemWithContent_append_one st.messages _ rfl _ rfl
  · have hl1 : handleUserLeft st t1 d
        = ({ st with
            participantCount := d.participantCount
            participants := d.participants
            messages := st.messages ++ [leftSystemMessage d.nickname t1] },
          [⟨NotifKind.info, d.nickname ++ " left the room"⟩]) := by
      rw [handleUserLeft_eq, if_neg (by simp [hfreshL])]
    have hdupL : hasRecentSystemDuplicate (handleUserLeft st t1 d).1.messages
        (some (d.nickname ++ " left the room")) t2 = true := by
      rw [hl1]
      exact hasRecentSystemDuplicate_append_self st.messages
        (leftSystemMessage d.nickname t1) rfl t2 hgtL
    have hl2 : handleUserLeft (handleUserLeft st t1 d).1 t2 d
        = ({ (handleUserLeft st t1 d).1 with
            participantCount := d.participantCount
            participants := d.participants }, []) := by
      rw [handleUserLeft_eq, if_pos hdupL]
    rw [hl2, hl1]
    rfl

/-- C3 witness: the amended claim at bob, 10000 ms and 11000 ms, from the
fresh state. -/
theorem c3_witness :
    (countSystemWithContent
        ((handleUserJoined (handleUserJoined emptyChatState 10000 bobEvent).1
            11000 bobEvent).1).messages
        (some (bobEvent.nickname ++ " joined the room"))
      = countSystemWithContent emptyChatState.messages
          (some (bobEvent.nickname ++ " joined the room")) + 1)
    ∧ countInfo ((handleUserLeft emptyChatState 10000 bobEvent).2
        ++ (handleUserLeft (handleUserLeft emptyChatState 10000 bobEvent).1
            11000 bobEvent).2) = 1 := by
  have h := c3_amended emptyChatState bobEvent 10000 11000
    (by decide) (by decide) (by decide) (by decide)
  exact ⟨h.1, h.2.2.2⟩

/-- A batch containing any failed upload makes `promiseAll` reject. -/
lemma promiseAll_error_of_failed (outs : List UploadOutcome)
    (h : ∃ e, UploadOutcome.failed e ∈ outs) :
    ∃ e, promiseAll outs = Except.error e := by
  induction outs with
  | nil =>
    obtain ⟨e, he⟩ := h
    exact absurd he (List.not_mem_nil _)
  | cons o rest ih =>
    cases o with
    | ok a =>
      obtain ⟨e, he⟩ := h
      have hrest : UploadOutcome.failed e ∈ rest := by
        cases List.mem_cons.mp he with
        | inl hh => exact absurd hh (by simp)
        | inr hh => exact hh
      obtain ⟨e2, he2⟩ := ih ⟨e, hrest⟩
      exact ⟨e2, by simp [promiseAll, he2, Except.map]⟩
    | failed e =>
      exact ⟨e, rfl⟩

/-- C4: while connected, any single upload failure in a `sendImage` or
`sendFile` batch means no send_message is emitted and the upload-failure
error notification is raised; `uploading` is false after the call whether
the uploads succeeded or failed. -/
theorem c4_atomic_attachment_send (conn : ConnState) (u0 : Bool) (n : Nat)
    (outcomes : List UploadOutcome) (caption descr : Option String)
    (hs : conn.hasSocket = true) (hc : conn.connected = true)
    (hfail : ∃ e, UploadOutcome.failed e ∈ outcomes) :
    ((sendImage conn u0 n outcomes caption).emits = []
      ∧ (sendImage conn u0 n outcomes caption).notifs
          = [⟨NotifKind.error, "Failed to send images"⟩])
    ∧ ((sendFile conn u0 n outcomes descr).emits = []
      ∧ (sendFile conn u0 n outcomes descr).notifs
          = [⟨NotifKind.error, "Failed to send files"⟩])
    ∧ (∀ outs : List UploadOutcome,
        (sendImage conn u0 n outs caption).uploadingAfter = false
        ∧ (sendFile conn u0 n outs descr).uploadingAfter = false) := by
  obtain ⟨e, he⟩ := promiseAll_error_of_failed outcomes hfail
  refine ⟨?_, ?_, ?_⟩
  · rw [sendImage, if_neg (by simp [hs, hc])]
    rw [uploadFiles, he]
    exact ⟨rfl, rfl⟩
  · rw [sendFile, if_neg (by simp [hs, hc])]
    rw [uploadFiles, he]
    exact ⟨rfl, rfl⟩
  · intro outs
    constructor
    · rw [sendImage, if_neg (by simp [hs, hc]), uploadFiles]
      cases promiseAll outs with
      | ok as => rfl
      | error e2 => rfl
    · rw [sendFile, if_neg (by simp [hs, hc]), uploadFiles]
      cases promiseAll outs with
      | ok as => rfl
      | error e2 => rfl

/-- C4 witness: a concrete three-file batch whose second upload fails. -/
theorem c4_witness :
    ((sendImage connOk false 3
        [UploadOutcome.ok sampleAttachment, UploadOutcome.failed "http 500",
          UploadOutcome.ok sampleAttachment] (some "cap")).emits = []
      ∧ (sendImage connOk false 3
          [UploadOutcome.ok sampleAttachment, UploadOutcome.failed "http 500",
            UploadOutcome.ok sampleAttachment] (some "cap")).uploadingAfter = false) := by
  have h := c4_atomic_attachment_send connOk false 3
    [UploadOutcome.ok sampleAttachment, UploadOutcome.failed "http 500",
      UploadOutcome.ok sampleAttachment] (some "cap") (some "cap")
    rfl rfl ⟨"http 500", by simp⟩
  exact ⟨h.1.1, (h.2.2 _).1⟩

/-- C5: `sendMessage`, `sendSticker` and `deleteMessage` issued without a
socket or while not connected emit nothing, raise exactly one
not-connected error notification, and leave the provider state (hence the
message list) unchanged. -/
theorem c5_disconnected_guard (conn : ConnState) (st : ChatState)
    (content stickerId messageId : String)
    (h : conn.hasSocket = false ∨ conn.connected = false) :
    sendMessage conn st content
        = ⟨st, [], [⟨NotifKind.error, "Not connected to server"⟩]⟩
    ∧ sendSticker conn st stickerId
        = ⟨st, [], [⟨NotifKind.error, "Not connected to server"⟩]⟩
    ∧ deleteMessage conn st messageId
        = ⟨st, [], [⟨NotifKind.error, "Not connected to server"⟩]⟩ := by
  have hg : (!conn.hasSocket || !conn.connected) = true := by
    cases h with
    | inl hh => simp [hh]
    | inr hh => simp [hh]
  refine ⟨?_, ?_, ?_⟩
  · rw [sendMessage, if_pos hg]
  · rw [sendSticker, if_pos hg]
  · rw [deleteMessage, if_pos hg]

/-- C5 witness: a socket that exists but is disconnected, on a mid-session
state. -/
theorem c5_witness :
    (sendMessage connIdle aliceTwoMsgState "yo").emits = []
    ∧ (sendMessage connIdle aliceTwoMsgState "yo").notifs
        = [⟨NotifKind.error, "Not connected to server"⟩]
    ∧ (sendMessage connIdle aliceTwoMsgState "yo").state.messages
        = aliceTwoMsgState.messages := by
  have h := c5_disconnected_guard connIdle aliceTwoMsgState "yo" "s1" "m1"
    (Or.inr rfl)
  rw [h.1]
  exact ⟨rfl, rfl, rfl⟩

/-- C6: `room_closed` empties the message list, zeros the participant count
and empties the participant list from any prior state, leaves roomToken,
sessionToken and nickname untouched, and emits one error notification
carrying the server reason. -/
theorem c6_room_closed_reset (st : ChatState) (reason : String) :
    (handleRoomClosed st reason).1.messages = []
    ∧ (handleRoomClosed st reason).1.participantCount = 0
    ∧ (handleRoomClosed st reason).1.participants = []
    ∧ (handleRoomClosed st reason).1.roomToken = st.roomToken
    ∧ (handleRoomClosed st reason).1.sessionToken = st.sessionToken
    ∧ (handleRoomClosed st reason).1.nickname = st.nickname
    ∧ (handleRoomClosed st reason).2
        = [⟨NotifKind.error, "Room closed: " ++ reason⟩] :=
  ⟨rfl, rfl, rfl, rfl, rfl, rfl, rfl⟩

/-- With the one-shot flag down, `room_joined` emits no notification and the
flag stays down. -/
lemma handleRoomJoined_noflag (st : ChatState) (ev : RoomJoinedData)
    (h : st.shouldShowJoinNotification = false) :
    (handleRoomJoined st ev).2 = []
    ∧ (handleRoomJoined st ev).1.shouldShowJoinNotification = false := by
  simp only [handleRoomJoined]
  rw [if_neg (by simp [h])]
  exact ⟨rfl, h⟩

/-- With the flag armed and not reconnecting, `room_joined` emits the
join-success notification once and clears the flag. -/
lemma handleRoomJoined_flagged (st : ChatState) (ev : RoomJoinedData)
    (hf : st.shouldShowJoinNotification = true) (hr : st.isReconnecting = false) :
    (handleRoomJoined st ev).2 = [⟨NotifKind.success, "Joined room successfully!"⟩]
    ∧ (handleRoomJoined st ev).1.shouldShowJoinNotification = false := by
  simp only [handleRoomJoined]
  rw [if_pos (by simp [hf, hr])]
  exact ⟨rfl, rfl⟩

/-- `countJoinSuccess` distributes over concatenation. -/
lemma countJoinSuccess_append (a b : List NotifCall) :
    countJoinSuccess (a ++ b) = countJoinSuccess a + countJoinSuccess b := by
  rw [countJoinSuccess, countJoinSuccess, countJoinSuccess,
    List.filter_append, List.length_append]

/-- With the flag down, a whole stream of `room_joined` events emits no
join-success notification. -/
lemma processRoomJoined_noflag (events : List RoomJoinedData) (st : ChatState)
    (h : st.shouldShowJoinNotification = false) :
    countJoinSuccess (processRoomJoined st events).2 = 0 := by
  induction events generalizing st with
  | nil => rfl
  | cons ev rest ih =>
    show countJoinSuccess ((handleRoomJoined st ev).2
        ++ (processRoomJoined (handleRoomJoined st ev).1 rest).2) = 0
    obtain ⟨h2, hflag⟩ := handleRoomJoined_noflag st ev h
    rw [countJoinSuccess_append, h2, ih _ hflag]
    rfl

/-- C7: after a `joinRoom` call arms the one-shot flag, the join-success
notification fires exactly once when at least one `room_joined` arrives and
never again across the rest of the stream — at most once per `joinRoom`. -/
theorem c7_join_success_once (st : ChatState) (r s n : String)
    (events : List RoomJoinedData) :
    countJoinSuccess (processRoomJoined (joinRoomState st r s n) events).2
        = min 1 events.length
    ∧ countJoinSuccess (processRoomJoined (joinRoomState st r s n) events).2 ≤ 1 := by
  have hmain : countJoinSuccess (processRoomJoined (joinRoomState st r s n) events).2
      = min 1 events.length := by
    cases events with
    | nil => rfl
    | cons ev rest =>
      show countJoinSuccess ((handleRoomJoined (joinRoomState st r s n) ev).2
          ++ (processRoomJoined
              (handleRoomJoined (joinRoomState st r s n) ev).1 rest).2)
        = min 1 (ev :: rest).length
      obtain ⟨h2, hflag⟩ :=
        handleRoomJoined_flagged (joinRoomState st r s n) ev rfl rfl
      rw [countJoinSuccess_append, h2, processRoomJoined_noflag rest _ hflag]
      have hone : countJoinSuccess
          [⟨NotifKind.success, "Joined room successfully!"⟩] = 1 := rfl
      rw [hone]
      simp
  exact ⟨hmain, by rw [hmain]; omega⟩

/-- C8 counterexample: with a socket present but the channel not connected,
the SocketContext.tsx `joinRoom` emits the join command immediately, while
`connected` is still false — the claim that the join command is never
emitted while the channel is unconnected fails on this cited variant. -/
theorem c8_counterexample :
    (joinRoomCtx idleJoinState "r" "s" "n").log
        = [⟨Emit.joinRoomCmd "r" "s", false⟩]
    ∧ ((joinRoomCtx idleJoinState "r" "s" "n").log.any
        (fun e => !e.whileConnected)) = true := by
  decide

/-- C8 amended: in both variants a missing socket makes `joinRoom` a silent
no-op and an existing socket records the session fields; the part_005
variant emits join_room at once when connected, and otherwise requests the
connection, emits nothing yet, and delivers the queued join (and any other
queued emits) with the channel connected once the handshake fires; the
SocketContext.tsx variant instead emits join_room immediately, tagged with
whatever the `connected` flag currently is. -/
theorem c8_join_room_deferral (st : JoinState) (r s n : String) :
    (st.hasSocket = false →
      joinRoomP5 st r s n = st ∧ joinRoomCtx st r s n = st)
    ∧ (st.hasSocket = true →
      (joinRoomP5 st r s n).roomToken = r
      ∧ (joinRoomP5 st r s n).sessionToken = s
      ∧ (joinRoomP5 st r s n).nickname = n
      ∧ (st.chan.connected = true →
          (joinRoomP5 st r s n).log = st.log ++ [⟨Emit.joinRoomCmd r s, true⟩])
      ∧ (st.chan.connected = false →
          (joinRoomP5 st r s n).chan.connectRequested = true
          ∧ (joinRoomP5 st r s n).log = st.log
          ∧ (fireConnect (joinRoomP5 st r s n)).log
              = st.log ++ (st.chan.pendingOnConnect
                  ++ [Emit.joinRoomCmd r s]).map (fun c => ⟨c, true⟩))
      ∧ (st.chan.connected = false →
          (joinRoomCtx st r s n).log
            = st.log ++ [⟨Emit.joinRoomCmd r s, false⟩])) := by
  constructor
  · intro h
    constructor
    · rw [joinRoomP5, if_pos (by simp [h])]
    · rw [joinRoomCtx, if_pos (by simp [h])]
  · intro h
    have hifs : (!st.hasSocket) = false := by simp [h]
    by_cases hc : st.chan.connected = true
    · have e5 : joinRoomP5 st r s n
          = { st with
              roomToken := r, sessionToken := s, nickname := n
              isReconnecting := false, shouldShowJoinNotification := true
              log := st.log ++ [⟨Emit.joinRoomCmd r s, true⟩] } := by
        rw [joinRoomP5, if_neg (by simp [h])]
        show (if st.chan.connected = true then _ else _) = _
        rw [if_pos hc]
      refine ⟨by rw [e5], by rw [e5], by rw [e5], fun _ => by rw [e5], ?_, ?_⟩
      · intro hcf
        rw [hc] at hcf
        exact absurd hcf (by simp)
      · intro hcf
        rw [hc] at hcf
        exact absurd hcf (by simp)
    · have hcf : st.chan.connected = false := by
        cases hcc : st.chan.connected with
        | false => rfl
        | true => exact absurd hcc hc
      have e5 : joinRoomP5 st r s n
          = { st with
              roomToken := r, sessionToken := s, nickname := n
              isReconnecting := false, shouldShowJoinNotification := true
              chan := { st.chan with
                connectRequested := true
                pendingOnConnect :=
                  st.chan.pendingOnConnect ++ [Emit.joinRoomCmd r s] } } := by
        rw [joinRoomP5, if_neg (by simp [h])]
        show (if st.chan.connected = true then _ else _) = _
        rw [if_neg (by simp [hcf])]
      have ectx : joinRoomCtx st r s n
          = { st with
              roomToken := r, sessionToken := s, nickname := n
              isReconnecting := false, shouldShowJoinNotification := true
              chan := { st.chan with connectRequested := true }
              log := st.log ++ [⟨Emit.joinRoomCmd r s, false⟩] } := by
        rw [joinRoomCtx, if_neg (by simp [h])]
        simp [hcf]
      refine ⟨by rw [e5], by rw [e5], by rw [e5], ?_, ?_, ?_⟩
      · intro hct
        exact absurd hct (by simp [hcf])
      · intro _
        refine ⟨by rw [e5], by rw [e5], ?_⟩
        rw [e5, fireConnect]
      · intro _
        rw [ectx]

/-- C8 witness: the amended claim at the concrete idle provider. -/
theorem c8_witness :
    (joinRoomP5 idleJoinState "r" "s" "n").log = []
    ∧ (fireConnect (joinRoomP5 idleJoinState "r" "s" "n")).log
        = [⟨Emit.joinRoomCmd "r" "s", true⟩] := by
  have h := (c8_join_room_deferral idleJoinState "r" "s" "n").2 rfl
  obtain ⟨-, -, -, -, hdef, -⟩ := h
  obtain ⟨-, hlog, hfire⟩ := hdef rfl
  exact ⟨hlog, by rw [hfire]; rfl⟩

/-- C9: `add` appends the entry under the generated id; a missing duration
defaults to 5000 ms; a positive duration keeps the entry visible from its
add time until exactly that duration elapses and no longer (so duration
2000 at t0 means present at t0 + 1000 and absent at t0 + 2500); duration 0
persists until an explicit remove; `remove` is idempotent. -/
theorem c9_notification_expiry (st : StoreState) (now : Nat) (input : NotifInput)
    (id : String) (t0 T t1 d : Nat) (inp : NotifInput)
    (q : List EventNotification) :
    ((addNotification st now input id).queue
      = st.queue ++ [⟨id, input.kind, input.title, input.message, input.duration⟩])
    ∧ (input.duration = none → effectiveDuration input = 5000)
    ∧ (inp.duration = some d → 0 < d →
        (t0 ≤ T → T < t0 + d →
          presentAt [(t0, StoreCmd.add inp id)] T id = true)
        ∧ (t0 + d ≤ T →
          presentAt [(t0, StoreCmd.add inp id)] T id = false))
    ∧ (inp.duration = some 0 →
        (t0 ≤ T → presentAt [(t0, StoreCmd.add inp id)] T id = true)
        ∧ (t0 ≤ t1 → t1 ≤ T →
          presentAt [(t0, StoreCmd.add inp id), (t1, StoreCmd.remove id)] T id
            = false))
    ∧ removeNotification (removeNotification q id) id = removeNotification q id := by
  refine ⟨?_, ?_, ?_, ?_, ?_⟩
  · simp only [addNotification]
    split
    · rfl
    · rfl
  · intro h
    rw [effectiveDuration, h]
    rfl
  · intro hd hdpos
    constructor
    · intro hT hlt
      have hnd : ¬ (t0 + d ≤ T) := by omega
      simp [presentAt, queueAt, applyCmd, addNotification, fireDueTimers,
        removeNotification, effectiveDuration, hd, hT, hnd, hdpos]
    · intro hTd
      have hT : t0 ≤ T := by omega
      simp [presentAt, queueAt, applyCmd, addNotification, fireDueTimers,
        removeNotification, effectiveDuration, hd, hT, hTd, hdpos]
  · intro hd
    constructor
    · intro hT
      simp [presentAt, queueAt, applyCmd, addNotification, fireDueTimers,
        removeNotification, effectiveDuration, hd, hT]
    · intro h01 h1T
      have hT : t0 ≤ T := by omega
      simp [presentAt, queueAt, applyCmd, addNotification, fireDueTimers,
        removeNotification, effectiveDuration, hd, hT, h1T]
  · simp only [removeNotification]
    rw [List.filter_filter]
    exact List.filter_congr (fun a _ => by rw [Bool.and_self])

/-- C9 witness: a notification added at t = 0 with duration 2000 is present
at t = 1000 and absent at t = 2500; the default duration is 5000. -/
theorem c9_witness :
    presentAt [(0, StoreCmd.add (sampleNotifInput (some 2000)) "n1")] 1000 "n1"
        = true
    ∧ presentAt [(0, StoreCmd.add (sampleNotifInput (some 2000)) "n1")] 2500 "n1"
        = false
    ∧ effectiveDuration (sampleNotifInput none) = 5000 := by
  have h1 := (c9_notification_expiry ⟨[], []⟩ 0 (sampleNotifInput none) "n1"
    0 1000 0 2000 (sampleNotifInput (some 2000)) []).2.2.1 rfl (by decide)
  have h2 := (c9_notification_expiry ⟨[], []⟩ 0 (sampleNotifInput none) "n1"
    0 2500 0 2000 (sampleNotifInput (some 2000)) []).2.2.1 rfl (by decide)
  have h3 := (c9_notification_expiry ⟨[], []⟩ 0 (sampleNotifInput none) "n1"
    0 1000 0 2000 (sampleNotifInput (some 2000)) []).2.1 rfl
  exact ⟨h1.1 (by decide) (by decide), h2.2 (by decide), h3⟩

/-- C10: while connected, an empty file batch is not rejected: `sendImage`
(`sendFile`) performs zero uploads, emits exactly one send_message of type
IMAGE (FILE) with an empty attachments array and the caption (description)
passed through `x || null`, raises one success notification reporting 0
files, and leaves `uploading` false afterwards. -/
theorem c10_empty_batch (conn : ConnState) (u0 : Bool)
    (caption descr : Option String)
    (hs : conn.hasSocket = true) (hc : conn.connected = true) :
    (sendImage conn u0 0 [] caption).emits
        = [Emit.sendMsg MsgType.IMAGE (jsOrNull caption) []]
    ∧ (sendImage conn u0 0 [] caption).notifs
        = [⟨NotifKind.success, "Sent 0 image(s)"⟩]
    ∧ (sendImage conn u0 0 [] caption).uploadingAfter = false
    ∧ (sendFile conn u0 0 [] descr).emits
        = [Emit.sendMsg MsgType.FILE (jsOrNull descr) []]
    ∧ (sendFile conn u0 0 [] descr).notifs
        = [⟨NotifKind.success, "Sent 0 file(s)"⟩]
    ∧ (sendFile conn u0 0 [] descr).uploadingAfter = false := by
  have e1 : sendImage conn u0 0 [] caption
      = ⟨[Emit.sendMsg MsgType.IMAGE (jsOrNull caption) []],
          [⟨NotifKind.success, "Sent 0 image(s)"⟩], true, false⟩ := by
    rw [sendImage, if_neg (by simp [hs, hc])]
    rfl
  have e2 : sendFile conn u0 0 [] descr
      = ⟨[Emit.sendMsg MsgType.FILE (jsOrNull descr) []],
          [⟨NotifKind.success, "Sent 0 file(s)"⟩], true, false⟩ := by
    rw [sendFile, if_neg (by simp [hs, hc])]
    rfl
  rw [e1, e2]
  exact ⟨rfl, rfl, rfl, rfl, rfl, rfl⟩

/-- C10 witness: the connected provider, no caption. -/
theorem c10_witness :
    (sendImage connOk false 0 [] none).emits
        = [Emit.sendMsg MsgType.IMAGE none []]
    ∧ (sendImage connOk false 0 [] none).notifs
        = [⟨NotifKind.success, "Sent 0 image(s)"⟩]
    ∧ (sendImage connOk false 0 [] none).uploadingAfter = false := by
  have h := c10_empty_batch connOk false none none rfl rfl
  exact ⟨h.1, h.2.1, h.2.2.1⟩

end ChatFrontEnd
